import Mathlib

/-!
Shallow embedding of the dsn-dashboard client (src/unnamed/part_000, a React
dashboard component) and of the Power BI token relay endpoint
(src/pages/api/powerbi-token.ts).

JavaScript numbers are idealised as exact rationals, with a separate `nan`
value standing for the IEEE NaN produced by failed coercions; infinities are
outside the modelled value space (no claim touches them).  A JS expression of
number type is therefore embedded as `Option ℚ`, where `none` plays the role
of NaN: every ordering comparison against `none` is `false`, exactly as every
ordering comparison against NaN is `false` in JS.
-/

/-- A raw cell value as produced by the parsing libraries: a string, a finite
number, NaN, or null.  A missing field is represented by `Option.none` at the
record-lookup level, mirroring the JS `undefined`. -/
inductive Value where
  | str (s : String)
  | num (q : ℚ)
  | nan
  | nullV
  deriving DecidableEq, Repr

/-- A record is a field-name/value association list (a parsed row object).
JS objects cannot hold duplicate keys; lookups take the first match. -/
def Record := List (String × Value)

instance : DecidableEq Record := by unfold Record; infer_instance

instance : Repr Record := by unfold Record; infer_instance

/-- Field lookup, `row[field]`: `none` models the JS `undefined`. -/
def getV (row : Record) (field : String) : Option Value :=
  (row.find? (fun kv => kv.1 == field)).map (fun kv => kv.2)

/-- JS truthiness of a cell value: falsy values are the empty string, the
number 0, NaN and null. -/
def jsTruthy : Value → Bool
  | .str s => s ≠ ""
  | .num q => q ≠ 0
  | .nan => false
  | .nullV => false

/-- JS `a || b` on optional cell values, where `none` stands for a missing or
already-falsy operand: keeps the first truthy value, else falls through. -/
def jsOrVal (a b : Option Value) : Option Value :=
  match a with
  | some v => if jsTruthy v then some v else b
  | none => b

/-- Decimal digit run at the head of a character list, with the rest. -/
def splitDigits (l : List Char) : List Char × List Char :=
  (l.takeWhile Char.isDigit, l.dropWhile Char.isDigit)

/-- Numeric value of a digit list, most significant first. -/
def digVal (ds : List Char) : ℕ :=
  ds.foldl (fun a c => 10 * a + (c.toNat - '0'.toNat)) 0

/-- Optional leading sign; returns whether it was a minus and the rest. -/
def parseSign : List Char → Bool × List Char
  | '-' :: r => (true, r)
  | '+' :: r => (false, r)
  | l => (false, l)

/-- The JS `parseFloat` builtin on strings, restricted to the rational value
space of the model: leading whitespace is skipped, then an optional sign,
integer digits, an optional fractional part and an optional exponent are
consumed; the longest numeric prefix is converted and the rest of the string
is ignored.  `none` models NaN (no numeric prefix at all).  The `Infinity`
spellings fall outside the rational idealisation and are not modelled. -/
def parseFloatStr (s : String) : Option ℚ :=
  let l := s.toList.dropWhile (fun c => c == ' ' || c == '\t' || c == '\n' || c == '\r')
  let p := parseSign l
  let ip := splitDigits p.2
  let fp : List Char × List Char :=
    match ip.2 with
    | '.' :: r => splitDigits r
    | _ => ([], ip.2)
  if ip.1.isEmpty && fp.1.isEmpty then none
  else
    let mant : ℚ := (digVal ip.1 : ℚ) + (digVal fp.1 : ℚ) / ((10 : ℚ) ^ fp.1.length)
    let ex : ℤ :=
      match fp.2 with
      | c :: r =>
          if c == 'e' || c == 'E' then
            let ep := parseSign r
            let ed := splitDigits ep.2
            if ed.1.isEmpty then 0
            else if ep.1 then -(digVal ed.1 : ℤ) else (digVal ed.1 : ℤ)
          else 0
      | [] => 0
    let v := mant * (10 : ℚ) ^ ex
    some (if p.1 then -v else v)

/-- Exact-rational rendering of a number as JS would stringify it; faithful on
integers (the only case exercised by the dashboard data paths proved about). -/
def ratToString (q : ℚ) : String :=
  if q.den = 1 then toString q.num else toString q.num ++ "/" ++ toString q.den

/-- JS `String(value)` on a cell value. -/
def jsToString : Value → String
  | .str s => s
  | .num q => ratToString q
  | .nan => "NaN"
  | .nullV => "null"

/-- JS `parseFloat` applied to a cell value (the value is stringified first,
so finite numbers pass through and NaN/null coerce to NaN). -/
def parseFloatVal : Value → Option ℚ
  | .str s => parseFloatStr s
  | .num q => some q
  | .nan => none
  | .nullV => none

/-- JS `parseFloat(row[field])`: a missing field gives `undefined`, which
stringifies to a non-numeric string and hence NaN. -/
def parseFloatV (v : Option Value) : Option ℚ :=
  match v with
  | some w => parseFloatVal w
  | none => none

/-- JS `a >= b` on numbers with NaN (`none`): false whenever either side is
NaN. -/
def jsGE (a b : Option ℚ) : Bool :=
  match a, b with
  | some x, some y => decide (y ≤ x)
  | _, _ => false

/-- JS `a <= b` on numbers with NaN (`none`): false whenever either side is
NaN. -/
def jsLE (a b : Option ℚ) : Bool :=
  match a, b with
  | some x, some y => decide (x ≤ y)
  | _, _ => false

/-- Whether the needle character list occurs at the head of the haystack. -/
def headMatch : List Char → List Char → Bool
  | [], _ => true
  | _ :: _, [] => false
  | c :: cs, d :: ds => (c == d) && headMatch cs ds

/-- Whether the needle occurs anywhere in the haystack. -/
def subMatch (nd : List Char) : List Char → Bool
  | [] => headMatch nd []
  | d :: ds => headMatch nd (d :: ds) || subMatch nd ds

/-- JS `hay.includes(needle)` on strings. -/
def hasSubstr (hay needle : String) : Bool :=
  subMatch needle.toList hay.toList

/-- JS `s.toLowerCase()` (character-list implementation). -/
def strToLower (s : String) : String :=
  String.mk (s.data.map Char.toLower)

/-- JS `s.split(".")` on the character list: cut at every dot. -/
def splitDotAux : List Char → List Char → List (List Char)
  | [], acc => [acc.reverse]
  | '.' :: rest, acc => acc.reverse :: splitDotAux rest []
  | c :: rest, acc => splitDotAux rest (c :: acc)

/-! ## Date parsing

The dashboard reads dates with the JS `Date` constructor.  The model covers
the ISO `YYYY-MM-DD` strings produced by the date inputs of the UI: such a
string parses to the UTC-midnight timestamp in milliseconds; any other string
parses to Invalid Date, whose time value is NaN (`none`).  A finite numeric
cell value is the millisecond timestamp itself.  The many further textual
formats the JS engine accepts are outside the modelled scope; no claim
depends on them. -/

/-- Days from the civil epoch 1970-01-01 for a proleptic Gregorian date
(standard days-from-civil computation). -/
def daysFromCivil (y m d : ℤ) : ℤ :=
  let yy := if m ≤ 2 then y - 1 else y
  let era := (if 0 ≤ yy then yy else yy - 399) / 400
  let yoe := yy - era * 400
  let mp := (m + 9) % 12
  let doy := (153 * mp + 2) / 5 + d - 1
  let doe := yoe * 365 + yoe / 4 - yoe / 100 + doy
  era * 146097 + doe - 719468

/-- Parse an ISO `YYYY-MM-DD` string into a UTC-midnight timestamp in
milliseconds; `none` for any other shape (Invalid Date). -/
def parseISODate (s : String) : Option ℚ :=
  match s.toList with
  | [y1, y2, y3, y4, '-', m1, m2, '-', d1, d2] =>
      if (y1.isDigit && y2.isDigit && y3.isDigit && y4.isDigit &&
          m1.isDigit && m2.isDigit && d1.isDigit && d2.isDigit) then
        let y := digVal [y1, y2, y3, y4]
        let m := digVal [m1, m2]
        let d := digVal [d1, d2]
        if 1 ≤ m && m ≤ 12 && 1 ≤ d && d ≤ 31 then
          some ((86400000 : ℚ) * (daysFromCivil y m d : ℚ))
        else none
      else none
  | _ => none

/-- The time value of `new Date(v)` for a cell value, in milliseconds;
`none` is the NaN time value of an Invalid Date. -/
def jsParseDate : Value → Option ℚ
  | .str s => parseISODate s
  | .num q => some q
  | .nan => none
  | .nullV => some 0

/-! ## Filter engine (the filter useEffect, part_000 lines 94-135) -/

/-- The `dateRange` state: two strings from date inputs, empty = unset.
The source field `end` is a Lean keyword, modelled as `stop`. -/
structure DateRange where
  start : String
  stop : String
  deriving DecidableEq, Repr

/-- One `numericFilters` entry for a field: `none` models a bound that was
never set (`undefined`), `some s` a string from the number input (possibly
empty). -/
structure NumBound where
  min : Option String
  max : Option String
  deriving DecidableEq, Repr

/-- The filter configuration: free-text query, date range and the ordered
`numericFilters` entries (object insertion order). -/
structure FilterConfig where
  filterText : String
  dateRange : DateRange
  numericFilters : List (String × NumBound)
  deriving DecidableEq, Repr

/-- Text predicate: some field value, stringified and lowercased, contains
the lowercased query (part_000 lines 99-103). -/
def textPass (q : String) (row : Record) : Bool :=
  row.any (fun kv => hasSubstr (strToLower (jsToString kv.2)) (strToLower q))

/-- The expression `row.Date || row.date || null`: first truthy of the two
spellings, else `none` (lines 109-110 treat any falsy outcome as absent). -/
def dateStrOf (row : Record) : Option Value :=
  jsOrVal (getV row ("Date")) (jsOrVal (getV row ("date")) none)

/-- The expression `!start || date >= start` of part_000 line 115, with the
start bound still a string (`new Date` applied when nonempty). -/
def startCheck (date : Option ℚ) (s : String) : Bool :=
  if s = "" then true else jsGE date (parseISODate s)

/-- The expression `!end || date <= end` of part_000 line 116. -/
def stopCheck (date : Option ℚ) (s : String) : Bool :=
  if s = "" then true else jsLE date (parseISODate s)

/-- Date-range predicate (part_000 lines 108-118): a falsy or missing date
cell passes outright; otherwise the cell is parsed as a date and compared
against the bounds, each bound active when its string is nonempty.  NaN
comparisons are false, so an Invalid Date fails every active bound. -/
def datePass (dr : DateRange) (row : Record) : Bool :=
  match dateStrOf row with
  | none => true
  | some v => startCheck (jsParseDate v) dr.start && stopCheck (jsParseDate v) dr.stop

/-- The expression `!min || val >= parseFloat(min)` of part_000 line 127,
with an unset bound modelled as `none`. -/
def minCheck (val : Option ℚ) : Option String → Bool
  | none => true
  | some s => if s = "" then true else jsGE val (parseFloatStr s)

/-- The expression `!max || val <= parseFloat(max)` of part_000 line 128. -/
def maxCheck (val : Option ℚ) : Option String → Bool
  | none => true
  | some s => if s = "" then true else jsLE val (parseFloatStr s)

/-- Numeric predicate for one bounded field (part_000 lines 124-130): the
cell value goes through `parseFloat`, and each bound applies unless it is
unset or the empty string (the falsy strings). -/
def numPass (field : String) (b : NumBound) (row : Record) : Bool :=
  minCheck (parseFloatV (getV row field)) b.min &&
  maxCheck (parseFloatV (getV row field)) b.max

/-- One `numericFilters` entry applied to the running result (part_000 lines
122-132): the filter runs unless both bounds are literally the empty
string. -/
def numFilterStep (field : String) (b : NumBound) (rows : List Record) : List Record :=
  if b.min ≠ some ("") ∨ b.max ≠ some ("") then rows.filter (numPass field b) else rows

/-- The whole filter pipeline (part_000 lines 94-135): text search when the
query is nonempty, then the date range when either end is set, then every
numeric-filter entry in order. -/
def filterEngine (rowData : List Record) (cfg : FilterConfig) : List Record :=
  let r1 := if cfg.filterText ≠ "" then rowData.filter (textPass cfg.filterText) else rowData
  let r2 :=
    if cfg.dateRange.start ≠ "" ∨ cfg.dateRange.stop ≠ "" then
      r1.filter (datePass cfg.dateRange)
    else r1
  cfg.numericFilters.foldl (fun acc fb => numFilterStep fb.1 fb.2 acc) r2

/-! ## Aggregation engine (kpis and chartData useMemos, part_000 lines 200-234) -/

/-- One ag-grid column definition as built by the upload handler. -/
structure ColumnDef where
  headerName : String
  field : String
  colFilter : Bool
  sortable : Bool
  deriving DecidableEq, Repr

/-- The KPI summary object returned on a nonempty filtered dataset. -/
structure KPISummary where
  totalRows : ℕ
  totalSales : ℚ
  avgSales : ℚ
  deriving DecidableEq, Repr

/-- Sales-field detection (part_000 line 206): the first column whose field
name contains the substring sales or revenue after lowercasing. -/
def salesFieldOf (columnDefs : List ColumnDef) : Option String :=
  (columnDefs.find? (fun c =>
    hasSubstr (strToLower c.field) "sales" || hasSubstr (strToLower c.field) "revenue")).map
    (fun c => c.field)

/-- The kpis useMemo (part_000 lines 200-215): an empty filtered dataset
yields the empty object (`none`); otherwise totalRows is the length,
totalSales sums the sales column through `parseFloat(x) || 0` (NaN
contributes 0), and avgSales divides guarded by the zero check. -/
def kpis (filteredData : List Record) (columnDefs : List ColumnDef) : Option KPISummary :=
  if filteredData.length = 0 then none
  else
    let totalRows := filteredData.length
    let totalSales : ℚ :=
      match salesFieldOf columnDefs with
      | some f => filteredData.foldl (fun sum row => sum + ((parseFloatV (getV row f)).getD 0)) 0
      | none => 0
    let avgSales : ℚ := if totalRows = 0 then 0 else totalSales / (totalRows : ℚ)
    some ⟨totalRows, totalSales, avgSales⟩

/-- The fixed chart palette (part_000 lines 44-51). -/
def COLORS : List String :=
  ["#3B82F6", "#8B5CF6", "#06B6D4", "#10B981", "#F59E0B", "#EF4444"]

/-- One entry of the categorical chart series. -/
structure ChartEntry where
  name : String
  count : ℕ
  fill : String
  deriving DecidableEq, Repr

/-- The grouping key of a row (part_000 line 225): the value of the grouping
field coerced to a property key, with any falsy or missing value bucketed
under the literal label Unknown. -/
def groupKey (field : String) (row : Record) : String :=
  match getV row field with
  | none => "Unknown"
  | some v => if jsTruthy v then jsToString v else ("Unknown")

/-- The statement `counts[key] = (counts[key] || 0) + 1` on the counts
object: bump the existing entry or append a fresh one. -/
def addCount : List (String × ℕ) → String → List (String × ℕ)
  | [], k => [(k, 1)]
  | (k1, n) :: rest, k =>
      if k1 == k then (k1, n + 1) :: rest else (k1, n) :: addCount rest k

/-- The mapping of count entries to chart entries with the cycling palette
(part_000 lines 229-233). -/
def withColors : ℕ → List (String × ℕ) → List ChartEntry
  | _, [] => []
  | i, (nm, c) :: rest => ⟨nm, c, COLORS.getD (i % COLORS.length) ""⟩ :: withColors (i + 1) rest

/-- The chartData useMemo (part_000 lines 218-234): group the filtered rows
by the first field of the first row (falling back to the literal Category
when there is none) and count occurrences per key. -/
def chartData (filteredData : List Record) : List ChartEntry :=
  if filteredData.length = 0 then []
  else
    let groupByField :=
      match filteredData.head? with
      | some r =>
          match r.head? with
          | some kv => if kv.1 ≠ "" then kv.1 else ("Category")
          | none => "Category"
      | none => "Category"
    let counts := filteredData.foldl (fun cs row => addCount cs (groupKey groupByField row)) []
    withColors 0 counts

/-! ## Session state and the upload handler (onFileUpload, part_000 lines
138-180).  The parsing libraries (Papa.parse, XLSX) are external
collaborators; the handler is embedded as a function of their outputs,
supplied as oracles from the raw file content. -/

/-- The session state touched by the upload handler and the filter engine:
the dataset (rowData, columnDefs) and the filter configuration plus the two
remaining UI state atoms set by the component. -/
structure SessionState where
  rowData : List Record
  columnDefs : List ColumnDef
  filterText : String
  dateRange : DateRange
  numericFilters : List (String × NumBound)
  selectedColumn : String
  showPbi : Bool
  deriving DecidableEq, Repr

/-- The expression `file.name.split(".").pop().toLowerCase()` of part_000
line 140. -/
def extOf (name : String) : String :=
  strToLower (String.mk ((splitDotAux name.data []).getLastD []))

/-- Column definitions built from a field-name list (part_000 lines 148-155
and 166-173). -/
def mkColumnDefs (fields : List String) : List ColumnDef :=
  fields.map (fun f => ⟨f, f, true, true⟩)

/-- The upload handler (part_000 lines 138-180).  `parseCSV` stands for
Papa.parse with header mode (rows plus meta.fields) and `parseXLSX` for the
XLSX first-sheet `sheet_to_json` rows; both are oracles on the raw content.
A csv upload replaces the dataset from the parse results; an xlsx/xls upload
replaces it with fields taken from the keys of the first parsed row; any
other extension alerts and leaves the state alone.  The second component is
the alert message, if any. -/
def onFileUpload (parseCSV : String → List Record × List String)
    (parseXLSX : String → List Record)
    (st : SessionState) (name content : String) : SessionState × Option String :=
  let ext := extOf name
  if ext = "csv" then
    let res := parseCSV content
    ({ st with rowData := res.1, columnDefs := mkColumnDefs res.2 }, none)
  else if ext = "xlsx" ∨ ext = "xls" then
    let jsonData := parseXLSX content
    ({ st with rowData := jsonData,
               columnDefs := mkColumnDefs ((jsonData.head?.getD []).map (fun kv => kv.1)) }, none)
  else
    (st, some ("Unsupported format. Please upload CSV or Excel."))

/-! ## Reference predicates for refinement comparison -/

/-- Modelled from the spec wording of the numeric predicate: the record
value is coerced with unparsable treated as 0 for the comparison, and the
record passes iff each bound is unset, the empty string, or satisfied. -/
def numPassSpec (field : String) (b : NumBound) (row : Record) : Bool :=
  let val : ℚ := (parseFloatV (getV row field)).getD 0
  (match b.min with
   | none => true
   | some s => if s = "" then true else jsGE (some val) (parseFloatStr s)) &&
  (match b.max with
   | none => true
   | some s => if s = "" then true else jsLE (some val) (parseFloatStr s))

/-- Whether an optional bound string imposes no constraint: unset or the
empty string. -/
def inactiveBound : Option String → Bool
  | none => true
  | some s => decide (s = "")

/-- The min bound check on a parsable record value: inactive bound or value
at least the parsed bound (a bound string that itself fails to parse is
never satisfied). -/
def minCheckVal (v : ℚ) : Option String → Bool
  | none => true
  | some s =>
      if s = "" then true
      else
        match parseFloatStr s with
        | some m => decide (m ≤ v)
        | none => false

/-- The max bound check on a parsable record value. -/
def maxCheckVal (v : ℚ) : Option String → Bool
  | none => true
  | some s =>
      if s = "" then true
      else
        match parseFloatStr s with
        | some m => decide (v ≤ m)
        | none => false

/-- The numeric predicate as amended: a record value that fails to parse is
NaN, which fails every active bound comparison, so such a record passes only
when both bounds are inactive; a parsable value passes iff each bound is
unset, the empty string, or satisfied. -/
def numPassCases (field : String) (b : NumBound) (row : Record) : Bool :=
  match parseFloatV (getV row field) with
  | none => inactiveBound b.min && inactiveBound b.max
  | some v => minCheckVal v b.min && maxCheckVal v b.max

/-- The start bound check on a parsable record date: unset or not after the
record date. -/
def startCheckVal (s : String) (d : ℚ) : Bool :=
  if s = "" then true
  else
    match parseISODate s with
    | some sd => decide (sd ≤ d)
    | none => false

/-- The end bound check on a parsable record date: unset or not before the
record date. -/
def stopCheckVal (s : String) (d : ℚ) : Bool :=
  if s = "" then true
  else
    match parseISODate s with
    | some ed => decide (d ≤ ed)
    | none => false

/-- The date predicate as amended: a missing or falsy date cell always
passes; a present truthy cell that fails to parse (Invalid Date) passes only
when neither end of the range is set; a parsable date passes iff the start
is unset or not after it and the end is unset or not before it. -/
def datePassCases (dr : DateRange) (row : Record) : Bool :=
  match dateStrOf row with
  | none => true
  | some v =>
      match jsParseDate v with
      | none => decide (dr.start = "") && decide (dr.stop = "")
      | some d => startCheckVal dr.start d && stopCheckVal dr.stop d

/-! ## Concrete sample data for witnesses and counterexamples -/

/-- The filter configuration with nothing set. -/
def emptyConfig : FilterConfig := ⟨"", ⟨"", ""⟩, []⟩

/-- Scenario A dataset: three records with Sales = 100, 200, bad. -/
def scenarioArows : List Record :=
  [[("Sales", Value.num 100)], [("Sales", Value.num 200)], [("Sales", Value.str ("bad"))]]

/-- Column definitions for the Scenario A dataset. -/
def scenarioAdefs : List ColumnDef := [⟨"Sales", "Sales", true, true⟩]

/-- A sample pre-upload session state with a nonempty dataset and active
filters. -/
def sampleState : SessionState :=
  ⟨[[("a", Value.num 1)]], [⟨"a", "a", true, true⟩], "q", ⟨"2024-01-01", ""⟩,
   [("a", ⟨some ("1"), none⟩)], "c", true⟩

/-- A concrete csv parse oracle producing one row with one field. -/
def csvParseSample : String → List Record × List String :=
  fun _ => ([[("f", Value.num 5)]], ["f"])

/-- A concrete xlsx parse oracle producing no rows. -/
def xlsxParseSample : String → List Record :=
  fun _ => []

/-! ## The Power BI token relay (src/pages/api/powerbi-token.ts) -/

/-- The five server-side environment values; `none` models an unset
variable. -/
structure RelayConfig where
  clientId : Option String
  tenantId : Option String
  clientSecret : Option String
  workspaceId : Option String
  reportId : Option String
  deriving DecidableEq, Repr

/-- An outbound fetch made by the relay: target URL and a rendering of the
request body. -/
structure FetchCall where
  url : String
  body : String
  deriving DecidableEq, Repr

/-- The relevant shape of an upstream fetch response: ok flag, status text,
and the two JSON fields the relay reads. -/
structure FetchResult where
  ok : Bool
  statusText : String
  tokenField : String
  expirationField : String
  deriving DecidableEq, Repr

/-- The JSON body of the relay response. -/
inductive RelayBody where
  | err (error : String) (details : Option String)
  | success (embedToken embedUrl reportId expiry : String)
  deriving DecidableEq, Repr

/-- The relay HTTP response. -/
structure RelayResponse where
  status : ℕ
  body : RelayBody
  deriving DecidableEq, Repr

/-- JS falsiness of an optional environment string: unset or empty. -/
def blankEnv : Option String → Bool
  | none => true
  | some s => s = ""

/-- The GET handler of the token relay.  `azureResp` and `pbiResp` are
oracles for the two upstream fetches (Azure AD token and Power BI embed
token).  Returns the HTTP response together with the list of outbound calls
actually made, in order: the config check returns 500 before any fetch, and
a failed upstream fetch throws into the catch block, which returns 500 with
the error message as details. -/
def relayGET (cfg : RelayConfig) (azureResp pbiResp : FetchResult) :
    RelayResponse × List FetchCall :=
  if blankEnv cfg.clientId || blankEnv cfg.tenantId || blankEnv cfg.clientSecret ||
     blankEnv cfg.workspaceId || blankEnv cfg.reportId then
    (⟨500, .err ("Power BI configuration is incomplete") none⟩, [])
  else
    let tenantId := cfg.tenantId.getD ("")
    let clientId := cfg.clientId.getD ("")
    let clientSecret := cfg.clientSecret.getD ("")
    let workspaceId := cfg.workspaceId.getD ("")
    let reportId := cfg.reportId.getD ("")
    let call1 : FetchCall :=
      ⟨"https://login.microsoftonline.com/" ++ tenantId ++ "/oauth2/v2.0/token",
       "client_id=" ++ clientId ++ "&client_secret=" ++ clientSecret ++
       "&grant_type=client_credentials&scope=https://analysis.windows.net/powerbi/api/.default"⟩
    if ¬ azureResp.ok then
      (⟨500, .err ("Failed to generate Power BI embed token")
          (some ("Failed to get Azure AD token: " ++ azureResp.statusText))⟩, [call1])
    else
      let call2 : FetchCall :=
        ⟨"https://api.powerbi.com/v1.0/myorg/groups/" ++ workspaceId ++ "/reports/" ++
           reportId ++ "/GenerateToken",
         "accessLevel=View&allowSaveAs=false"⟩
      if ¬ pbiResp.ok then
        (⟨500, .err ("Failed to generate Power BI embed token")
            (some ("Failed to generate embed token: " ++ pbiResp.statusText))⟩, [call1, call2])
      else
        (⟨200, .success pbiResp.tokenField
            ("https://app.powerbi.com/reportEmbed?reportId=" ++ reportId ++
               "&groupId=" ++ workspaceId)
            reportId pbiResp.expirationField⟩, [call1, call2])

/-! # Theorems -/

/-- Folding addition of a mapped value equals the accumulator plus the sum of
the mapped list. -/
theorem foldl_add_eq_sum (l : List Record) (f : Record → ℚ) (a : ℚ) :
    l.foldl (fun s r => s + f r) a = a + (l.map f).sum := by
  induction l generalizing a with
  | nil => simp
  | cons x xs ih => simp [ih, add_assoc]

/-- A conditional filter yields a sublist. -/
theorem sublist_ite_filter (c : Prop) [Decidable c] (p : Record → Bool) (l : List Record) :
    List.Sublist (if c then l.filter p else l) l := by
  split
  · exact List.filter_sublist l
  · exact List.Sublist.refl l

/-- Each pass of the numeric-filter fold yields a sublist of its input. -/
theorem foldl_numFilterStep_sublist (fbs : List (String × NumBound)) :
    ∀ l : List Record,
      List.Sublist (fbs.foldl (fun acc fb => numFilterStep fb.1 fb.2 acc) l) l := by
  induction fbs with
  | nil => intro l; exact List.Sublist.refl l
  | cons fb rest ih =>
      intro l
      refine (ih _).trans ?_
      unfold numFilterStep
      exact sublist_ite_filter _ _ _

/-- C4: for every dataset and filter configuration, the filtered result is a
subsequence of the dataset: every element comes from the dataset, in the same
relative order, with nothing duplicated or synthesized. -/
theorem filterEngine_sublist (D : List Record) (cfg : FilterConfig) :
    List.Sublist (filterEngine D cfg) D := by
  unfold filterEngine
  exact (foldl_numFilterStep_sublist _ _).trans
    ((sublist_ite_filter _ _ _).trans (sublist_ite_filter _ _ _))

/-- Bumping a key in the counts object increases the total count by one. -/
theorem addCount_sum (cs : List (String × ℕ)) (k : String) :
    ((addCount cs k).map Prod.snd).sum = (cs.map Prod.snd).sum + 1 := by
  induction cs with
  | nil => simp [addCount]
  | cons p rest ih =>
      rcases p with ⟨k1, n⟩
      by_cases h : (k1 == k) = true
      · simp [addCount, h]
        omega
      · simp [addCount, h, ih]
        omega

/-- Attaching palette colors preserves the counts. -/
theorem withColors_counts (i : ℕ) (cs : List (String × ℕ)) :
    (withColors i cs).map (fun e => e.count) = cs.map Prod.snd := by
  induction cs generalizing i with
  | nil => simp [withColors]
  | cons p rest ih =>
      rcases p with ⟨nm, c⟩
      simp [withColors, ih]

/-- Folding rows into the counts object adds one to the total per row. -/
theorem foldl_addCount_sum (gk : Record → String) (rows : List Record) :
    ∀ cs : List (String × ℕ),
      ((rows.foldl (fun cs row => addCount cs (gk row)) cs).map Prod.snd).sum =
        (cs.map Prod.snd).sum + rows.length := by
  induction rows with
  | nil => intro cs; simp
  | cons r rest ih =>
      intro cs
      simp only [List.foldl_cons, ih, addCount_sum, List.length_cons]
      omega

/-- C6: the count values of the categorical series sum to the length of the
filtered dataset, each record landing in exactly one bucket. -/
theorem chartData_count_sum (fd : List Record) :
    ((chartData fd).map (fun e => e.count)).sum = fd.length := by
  unfold chartData
  by_cases h : fd.length = 0
  · simp [h]
  · rw [if_neg h, withColors_counts, foldl_addCount_sum]
    simp

/-- C2 counterexample: with only a max bound of 50, a record whose Sales
value is the unparsable string bad is excluded by the code (parseFloat gives
NaN, and NaN <= 50 is false), while the predicate worded by the claim
(unparsable treated as 0) lets it pass. -/
theorem numPass_unparsable_cex :
    numPass ("Sales") ⟨none, some ("50")⟩ [("Sales", Value.str ("bad"))] = false ∧
    numPassSpec ("Sales") ⟨none, some ("50")⟩ [("Sales", Value.str ("bad"))] = true := by
  with_unfolding_all exact ⟨rfl, rfl⟩

/-- NaN on the left makes the JS greater-or-equal false. -/
theorem jsGE_none_left (b : Option ℚ) : jsGE none b = false := rfl

/-- NaN on the left makes the JS less-or-equal false. -/
theorem jsLE_none_left (b : Option ℚ) : jsLE none b = false := rfl

/-- The min check on a NaN value reduces to inactivity of the bound. -/
theorem minCheck_none (bd : Option String) : minCheck none bd = inactiveBound bd := by
  cases bd with
  | none => rfl
  | some s =>
      by_cases hs : s = "" <;> simp [minCheck, inactiveBound, hs, jsGE_none_left]

/-- The max check on a NaN value reduces to inactivity of the bound. -/
theorem maxCheck_none (bd : Option String) : maxCheck none bd = inactiveBound bd := by
  cases bd with
  | none => rfl
  | some s =>
      by_cases hs : s = "" <;> simp [maxCheck, inactiveBound, hs, jsLE_none_left]

/-- The min check on a parsable value agrees with the amended check. -/
theorem minCheck_some (v : ℚ) (bd : Option String) :
    minCheck (some v) bd = minCheckVal v bd := by
  cases bd with
  | none => rfl
  | some s =>
      by_cases hs : s = "" <;> simp only [minCheck, minCheckVal, hs, if_true, if_false]
      rcases parseFloatStr s with _ | m <;> rfl

/-- The max check on a parsable value agrees with the amended check. -/
theorem maxCheck_some (v : ℚ) (bd : Option String) :
    maxCheck (some v) bd = maxCheckVal v bd := by
  cases bd with
  | none => rfl
  | some s =>
      by_cases hs : s = "" <;> simp only [maxCheck, maxCheckVal, hs, if_true, if_false]
      rcases parseFloatStr s with _ | m <;> rfl

/-- C2 (amended): the numeric predicate coerces the record value with
parseFloat, yielding NaN when unparsable; NaN fails every active bound, so an
unparsable value passes only when both bounds are inactive, and a parsable
value passes iff each bound is unset, the empty string, or satisfied. -/
theorem numPass_eq_cases (field : String) (b : NumBound) (row : Record) :
    numPass field b row = numPassCases field b row := by
  unfold numPass numPassCases
  rcases hv : parseFloatV (getV row field) with _ | v
  · rw [minCheck_none, maxCheck_none]
  · rw [minCheck_some, maxCheck_some]

/-- C3 counterexample: a record whose Date field holds the unparsable string
notadate is excluded by the filter pipeline once a start bound is set, while
the claim says such a record is never excluded by the date axis. -/
theorem datePass_unparsable_cex :
    filterEngine [[("Date", Value.str ("notadate"))]] ⟨"", ⟨"2024-01-01", ""⟩, []⟩ = [] := by
  with_unfolding_all rfl

/-- The start check on an Invalid Date reduces to the bound being unset. -/
theorem startCheck_none (s : String) : startCheck none s = decide (s = "") := by
  by_cases hs : s = "" <;> simp [startCheck, hs, jsGE_none_left]

/-- The end check on an Invalid Date reduces to the bound being unset. -/
theorem stopCheck_none (s : String) : stopCheck none s = decide (s = "") := by
  by_cases hs : s = "" <;> simp [stopCheck, hs, jsLE_none_left]

/-- The start check on a parsed date agrees with the amended check. -/
theorem startCheck_some (d : ℚ) (s : String) :
    startCheck (some d) s = startCheckVal s d := by
  by_cases hs : s = "" <;> simp only [startCheck, startCheckVal, hs, if_true, if_false]
  rcases parseISODate s with _ | sd <;> rfl

/-- The end check on a parsed date agrees with the amended check. -/
theorem stopCheck_some (d : ℚ) (s : String) :
    stopCheck (some d) s = stopCheckVal s d := by
  by_cases hs : s = "" <;> simp only [stopCheck, stopCheckVal, hs, if_true, if_false]
  rcases parseISODate s with _ | ed <;> rfl

/-- C3 (amended): a record whose date cell is missing or falsy always passes
the date axis; a present truthy cell that does not parse passes only when
neither range end is set; a parsable date passes iff it is on or after a set
start and on or before a set end. -/
theorem datePass_eq_cases (dr : DateRange) (row : Record) :
    datePass dr row = datePassCases dr row := by
  unfold datePass datePassCases
  rcases hd : dateStrOf row with _ | v
  · rfl
  · dsimp only
    rcases hp : jsParseDate v with _ | d <;> dsimp only
    · rw [startCheck_none, stopCheck_none]
    · rw [startCheck_some, stopCheck_some]

/-- C1 counterexample: on the empty filtered dataset the KPI computation
returns the empty object, not a summary reporting totalRows = 0 and
avgSales = 0. -/
theorem kpis_empty_cex : kpis (filterEngine [] emptyConfig) [] = none := by
  with_unfolding_all rfl

/-- C1 (amended): the KPI computation yields no summary exactly on the empty
filtered dataset (so no division is attempted there), and any summary it does
yield has totalRows equal to the filtered length, positive, with avgSales
equal to totalSales divided by totalRows. -/
theorem kpis_consistency (D : List Record) (cfg : FilterConfig) (defs : List ColumnDef) :
    (kpis (filterEngine D cfg) defs = none ↔ filterEngine D cfg = []) ∧
    (∀ s, kpis (filterEngine D cfg) defs = some s →
      s.totalRows = (filterEngine D cfg).length ∧ 0 < s.totalRows ∧
      s.avgSales = s.totalSales / (s.totalRows : ℚ)) := by
  constructor
  · unfold kpis
    by_cases h : (filterEngine D cfg).length = 0
    · rw [if_pos h]
      simp [List.length_eq_zero.mp h]
    · rw [if_neg h]
      simp only [← List.length_eq_zero]
      simp [h]
  · intro s hs
    unfold kpis at hs
    by_cases h : (filterEngine D cfg).length = 0
    · rw [if_pos h] at hs
      exact absurd hs (by simp)
    · rw [if_neg h] at hs
      have hmk := Option.some.inj hs
      subst hmk
      refine ⟨rfl, Nat.pos_of_ne_zero h, ?_⟩
      show (if (filterEngine D cfg).length = 0 then (0 : ℚ) else _) = _
      rw [if_neg h]

/-- C1 witness: the amended KPI consistency at the Scenario A dataset with the
empty filter configuration, whose summary is totalRows 3, totalSales 300 and
avgSales 100. -/
theorem kpis_consistency_witness :
    (kpis (filterEngine scenarioArows emptyConfig) scenarioAdefs = none ↔
      filterEngine scenarioArows emptyConfig = []) ∧
    ((⟨3, 300, 100⟩ : KPISummary).totalRows = (filterEngine scenarioArows emptyConfig).length ∧
      0 < (⟨3, 300, 100⟩ : KPISummary).totalRows ∧
      (⟨3, 300, 100⟩ : KPISummary).avgSales =
        (⟨3, 300, 100⟩ : KPISummary).totalSales /
          (((⟨3, 300, 100⟩ : KPISummary).totalRows : ℕ) : ℚ)) :=
  ⟨(kpis_consistency scenarioArows emptyConfig scenarioAdefs).1,
   (kpis_consistency scenarioArows emptyConfig scenarioAdefs).2 ⟨3, 300, 100⟩
     (by with_unfolding_all rfl)⟩

/-- C5: on a nonempty filtered dataset the KPI summary exists, counts every
record, totals the detected sales field with unparsable values contributing
0, and divides for the average; Scenario A (Sales = 100, 200, bad) yields
totalRows 3, totalSales 300 and avgSales 100. -/
theorem kpis_totalSales_sum (fd : List Record) (defs : List ColumnDef) (h : fd ≠ []) :
    (∃ s, kpis fd defs = some s ∧ s.totalRows = fd.length ∧
       s.totalSales =
         (match salesFieldOf defs with
          | some f => (fd.map (fun row => (parseFloatV (getV row f)).getD 0)).sum
          | none => 0) ∧
       s.avgSales = s.totalSales / (fd.length : ℚ)) ∧
    kpis scenarioArows scenarioAdefs = some ⟨3, 300, 100⟩ := by
  have hlen : fd.length ≠ 0 := fun hh => h (List.length_eq_zero.mp hh)
  constructor
  · unfold kpis
    rw [if_neg hlen]
    refine ⟨_, rfl, rfl, ?_, ?_⟩
    · show (match salesFieldOf defs with
        | some f => fd.foldl (fun sum row => sum + ((parseFloatV (getV row f)).getD 0)) 0
        | none => (0 : ℚ)) = _
      rcases hsf : salesFieldOf defs with _ | f
      · rfl
      · dsimp only
        rw [foldl_add_eq_sum, zero_add]
    · show (if fd.length = 0 then (0 : ℚ) else _) = _
      rw [if_neg hlen]
  · with_unfolding_all rfl

/-- C5 witness: the theorem applied at the Scenario A dataset and columns. -/
theorem kpis_totalSales_sum_witness :
    (∃ s, kpis scenarioArows scenarioAdefs = some s ∧
       s.totalRows = scenarioArows.length ∧
       s.totalSales =
         (match salesFieldOf scenarioAdefs with
          | some f => (scenarioArows.map (fun row => (parseFloatV (getV row f)).getD 0)).sum
          | none => 0) ∧
       s.avgSales = s.totalSales / (scenarioArows.length : ℚ)) ∧
    kpis scenarioArows scenarioAdefs = some ⟨3, 300, 100⟩ :=
  kpis_totalSales_sum scenarioArows scenarioAdefs (by decide)

/-- C7: an upload whose extension is not csv, xlsx or xls raises the alert
and leaves the entire session state exactly as it was. -/
theorem onFileUpload_unsupported (pc : String → List Record × List String)
    (px : String → List Record) (st : SessionState) (name content : String)
    (h1 : extOf name ≠ "csv") (h2 : extOf name ≠ "xlsx") (h3 : extOf name ≠ "xls") :
    onFileUpload pc px st name content =
      (st, some ("Unsupported format. Please upload CSV or Excel.")) := by
  unfold onFileUpload
  simp [h1, h2, h3]

/-- C7 witness: a txt upload against a populated session state. -/
theorem onFileUpload_unsupported_witness :
    onFileUpload csvParseSample xlsxParseSample sampleState ("data.txt") ("") =
      (sampleState, some ("Unsupported format. Please upload CSV or Excel.")) :=
  onFileUpload_unsupported csvParseSample xlsxParseSample sampleState ("data.txt") ("")
    (by decide) (by decide) (by decide)

/-- C8: a supported upload replaces rowData and columnDefs wholesale from the
parse outputs, signals no error, and leaves filterText, dateRange and
numericFilters untouched, so filters persist across re-upload. -/
theorem onFileUpload_preserves_filters (pc : String → List Record × List String)
    (px : String → List Record) (st : SessionState) (name content : String)
    (h : extOf name = "csv" ∨ extOf name = "xlsx" ∨ extOf name = "xls") :
    (onFileUpload pc px st name content).2 = none ∧
    (onFileUpload pc px st name content).1.filterText = st.filterText ∧
    (onFileUpload pc px st name content).1.dateRange = st.dateRange ∧
    (onFileUpload pc px st name content).1.numericFilters = st.numericFilters ∧
    (extOf name = "csv" →
      (onFileUpload pc px st name content).1.rowData = (pc content).1 ∧
      (onFileUpload pc px st name content).1.columnDefs = mkColumnDefs (pc content).2) ∧
    ((extOf name = "xlsx" ∨ extOf name = "xls") →
      (onFileUpload pc px st name content).1.rowData = px content ∧
      (onFileUpload pc px st name content).1.columnDefs =
        mkColumnDefs (((px content).head?.getD []).map (fun kv => kv.1))) := by
  rcases h with h | h | h <;> simp [onFileUpload, h]

/-- C8 witness: a csv upload against a populated session state with active
filters. -/
theorem onFileUpload_preserves_filters_witness :
    (onFileUpload csvParseSample xlsxParseSample sampleState ("data.csv") ("")).2 = none ∧
    (onFileUpload csvParseSample xlsxParseSample sampleState ("data.csv") ("")).1.filterText =
      sampleState.filterText ∧
    (onFileUpload csvParseSample xlsxParseSample sampleState ("data.csv") ("")).1.dateRange =
      sampleState.dateRange ∧
    (onFileUpload csvParseSample xlsxParseSample sampleState ("data.csv") ("")).1.numericFilters =
      sampleState.numericFilters ∧
    (extOf ("data.csv") = "csv" →
      (onFileUpload csvParseSample xlsxParseSample sampleState ("data.csv") ("")).1.rowData =
        (csvParseSample ("")).1 ∧
      (onFileUpload csvParseSample xlsxParseSample sampleState ("data.csv") ("")).1.columnDefs =
        mkColumnDefs (csvParseSample ("")).2) ∧
    ((extOf ("data.csv") = "xlsx" ∨ extOf ("data.csv") = "xls") →
      (onFileUpload csvParseSample xlsxParseSample sampleState ("data.csv") ("")).1.rowData =
        xlsxParseSample ("") ∧
      (onFileUpload csvParseSample xlsxParseSample sampleState ("data.csv") ("")).1.columnDefs =
        mkColumnDefs (((xlsxParseSample ("")).head?.getD []).map (fun kv => kv.1))) :=
  onFileUpload_preserves_filters csvParseSample xlsxParseSample sampleState ("data.csv") ("")
    (Or.inl (by decide))

/-- C9: when any of the five required configuration values is unset the relay
GET returns 500 with the populated error field and makes no outbound call. -/
theorem relayGET_incomplete (cfg : RelayConfig) (a p : FetchResult)
    (h : cfg.clientId = none ∨ cfg.tenantId = none ∨ cfg.clientSecret = none ∨
      cfg.workspaceId = none ∨ cfg.reportId = none) :
    (relayGET cfg a p).1.status = 500 ∧
    (relayGET cfg a p).1.body = RelayBody.err ("Power BI configuration is incomplete") none ∧
    (relayGET cfg a p).2 = [] := by
  have hb : (blankEnv cfg.clientId || blankEnv cfg.tenantId || blankEnv cfg.clientSecret ||
      blankEnv cfg.workspaceId || blankEnv cfg.reportId) = true := by
    rcases h with h | h | h | h | h <;> simp [h, blankEnv]
  simp [relayGET, hb]

/-- C9 witness: the relay with the client id unset and both upstream oracles
available, showing the fetches are still not made. -/
theorem relayGET_incomplete_witness :
    (relayGET ⟨none, some ("t"), some ("s"), some ("w"), some ("r")⟩
      ⟨true, "", "", ""⟩ ⟨true, "", "", ""⟩).1.status = 500 ∧
    (relayGET ⟨none, some ("t"), some ("s"), some ("w"), some ("r")⟩
      ⟨true, "", "", ""⟩ ⟨true, "", "", ""⟩).1.body =
        RelayBody.err ("Power BI configuration is incomplete") none ∧
    (relayGET ⟨none, some ("t"), some ("s"), some ("w"), some ("r")⟩
      ⟨true, "", "", ""⟩ ⟨true, "", "", ""⟩).2 = [] :=
  relayGET_incomplete ⟨none, some ("t"), some ("s"), some ("w"), some ("r")⟩
    ⟨true, "", "", ""⟩ ⟨true, "", "", ""⟩ (Or.inl rfl)

/-- C10: any falsy first-field value is bucketed under the literal label
Unknown; the listed falsy values include the number 0, the empty string,
null and NaN, and concretely a present numeric 0 merges with a record
missing the field into a single Unknown bucket of size 2. -/
theorem groupKey_falsy (f : String) (v : Value) (rest : Record)
    (hv : jsTruthy v = false) :
    groupKey f ((f, v) :: rest) = "Unknown" ∧
    (jsTruthy (Value.num 0) = false ∧ jsTruthy (Value.str ("")) = false ∧
      jsTruthy Value.nullV = false ∧ jsTruthy Value.nan = false) ∧
    chartData [[("A", Value.num 0)], []] = [⟨"Unknown", 2, "#3B82F6"⟩] := by
  refine ⟨?_, by decide, by with_unfolding_all rfl⟩
  unfold groupKey getV
  simp [List.find?, hv]

/-- C10 witness: a record whose first field holds the number 0 lands under
Unknown. -/
theorem groupKey_falsy_witness :
    groupKey ("A") [("A", Value.num 0)] = "Unknown" ∧
    (jsTruthy (Value.num 0) = false ∧ jsTruthy (Value.str ("")) = false ∧
      jsTruthy Value.nullV = false ∧ jsTruthy Value.nan = false) ∧
    chartData [[("A", Value.num 0)], []] = [⟨"Unknown", 2, "#3B82F6"⟩] :=
  groupKey_falsy ("A") (Value.num 0) [] (by decide)
